import Mathlib

/-!
Shallow embedding of the request/response task-dispatch layer of the iris
XMPP client library: the `Stanza::Error` value type (xmpp_stanza.h), and the
`Task` lifecycle, dispatch and reply-verification logic (xmpp_task.cpp /
xmpp_task.h).  External collaborator types (XML elements, JID values) are
modelled as plain Lean structures; helpers whose implementation is not part
of the three source files (xmpp_xmlcommon, xmpp_stanza.cpp, JID parsing) are
modelled from the specification and marked as such in their doc comments.
-/

namespace Iris

/-- JID value (external collaborator): `node@domain/resource`; the bare form
omits the resource. -/
structure Jid where
  node : String
  domain : String
  resource : String
deriving DecidableEq, Repr

namespace Jid

/-- Modelled from the spec: a JID is empty when it has no content at all. -/
def isEmpty (j : Jid) : Bool :=
  j.node = "" && j.domain = "" && j.resource = ""

/-- Modelled from the spec: JID comparison; with `compareRes = true` all three
parts must match (exact match), otherwise only the bare parts (node, domain)
are compared. -/
def compare (a b : Jid) (compareRes : Bool) : Bool :=
  if compareRes then
    a.node = b.node && a.domain = b.domain && a.resource = b.resource
  else
    a.node = b.node && a.domain = b.domain

/-- Bare form of a JID: the resource suffix is dropped. -/
def bare (j : Jid) : Jid :=
  ⟨j.node, j.domain, ""⟩

end Jid

/-- Split a character list at the first occurrence of `c`: the part before
and the part after, or none when `c` does not occur. -/
def breakAt (c : Char) : List Char → Option (List Char × List Char)
  | [] => none
  | a :: rest =>
    if a = c then some ([], rest)
    else
      match breakAt c rest with
      | some (l, r) => some (a :: l, r)
      | none => none

/-- Modelled from the spec: parsing a JID string of shape
`node@domain/resource` with node and resource optional (external JID
collaborator, not part of the three source files): the resource starts at
the first slash, the node ends at the first at-sign before it. -/
def jidOfString (s : String) : Jid :=
  let cs := s.data
  let p1 : List Char × List Char :=
    match breakAt '/' cs with
    | some (l, r) => (l, r)
    | none => (cs, [])
  let p2 : List Char × List Char :=
    match breakAt '@' p1.1 with
    | some (l, r) => (l, r)
    | none => ([], p1.1)
  ⟨String.mk p2.1, String.mk p2.2, String.mk p1.2⟩

/-- XML element (external collaborator): tag name, attribute list, text
content and child elements. -/
inductive XmlElem where
  | mk (tagName : String) (attrs : List (String × String))
       (text : String) (children : List XmlElem)

namespace XmlElem

def tagName : XmlElem → String
  | .mk t _ _ _ => t

def attrs : XmlElem → List (String × String)
  | .mk _ a _ _ => a

def text : XmlElem → String
  | .mk _ _ s _ => s

def children : XmlElem → List XmlElem
  | .mk _ _ _ c => c

end XmlElem

/-- Attribute lookup, `QDomElement::attribute`: empty string when absent. -/
def attrOf (x : XmlElem) (name : String) : String :=
  match x.attrs.find? (fun p => p.1 = name) with
  | some p => p.2
  | none => ""

/-- Modelled from the spec: `findSubTag` (xmpp_xmlcommon is not in src)
locates the first direct child with the given tag name, if any. -/
def findSubTag (e : XmlElem) (name : String) : Option XmlElem :=
  e.children.find? (fun c => c.tagName = name)

/-- Modelled from the spec: `queryNS` (xmpp_xmlcommon is not in src) returns
the first query-namespace found in the element: the `xmlns` attribute of the
first `query` child, else the empty string. -/
def queryNS (x : XmlElem) : String :=
  match findSubTag x "query" with
  | some q => attrOf q "xmlns"
  | none => ""

/-- The fixed error-conditions namespace of the wire format. -/
def nsStanzas : String := "urn:ietf:params:xml:ns:xmpp-stanzas"

/-- Structured stanza error, `Stanza::Error` of xmpp_stanza.h: reaction type,
condition, optional text, optional application-specific payload, and the
legacy numeric code it was built from (0 when none). -/
structure StanzaError where
  type : Int
  condition : Int
  text : String
  appSpec : Option XmlElem
  originalCode : Int

namespace StanzaError

/-- ErrorType enumerator values of xmpp_stanza.h. -/
def Cancel : Int := 1
def Continue : Int := 2
def Modify : Int := 3
def Auth : Int := 4
def Wait : Int := 5

/-- ErrorCond enumerator values of xmpp_stanza.h (BadRequest = 1, ...,
UnexpectedRequest = 22). -/
def BadRequest : Int := 1
def Conflict : Int := 2
def FeatureNotImplemented : Int := 3
def Forbidden : Int := 4
def Gone : Int := 5
def InternalServerError : Int := 6
def ItemNotFound : Int := 7
def JidMalformed : Int := 8
def NotAcceptable : Int := 9
def NotAllowed : Int := 10
def NotAuthorized : Int := 11
def PaymentRequired : Int := 12
def RecipientUnavailable : Int := 13
def Redirect : Int := 14
def RegistrationRequired : Int := 15
def RemoteServerNotFound : Int := 16
def RemoteServerTimeout : Int := 17
def ResourceConstraint : Int := 18
def ServiceUnavailable : Int := 19
def SubscriptionRequired : Int := 20
def UndefinedCondition : Int := 21
def UnexpectedRequest : Int := 22

/-- Condition element names of the wire format, one per ErrorCond value. -/
def condNameTable : List (String × Int) :=
  [("bad-request", BadRequest),
   ("conflict", Conflict),
   ("feature-not-implemented", FeatureNotImplemented),
   ("forbidden", Forbidden),
   ("gone", Gone),
   ("internal-server-error", InternalServerError),
   ("item-not-found", ItemNotFound),
   ("jid-malformed", JidMalformed),
   ("not-acceptable", NotAcceptable),
   ("not-allowed", NotAllowed),
   ("not-authorized", NotAuthorized),
   ("payment-required", PaymentRequired),
   ("recipient-unavailable", RecipientUnavailable),
   ("redirect", Redirect),
   ("registration-required", RegistrationRequired),
   ("remote-server-not-found", RemoteServerNotFound),
   ("remote-server-timeout", RemoteServerTimeout),
   ("resource-constraint", ResourceConstraint),
   ("service-unavailable", ServiceUnavailable),
   ("subscription-required", SubscriptionRequired),
   ("undefined-condition", UndefinedCondition),
   ("unexpected-request", UnexpectedRequest)]

/-- Modelled from the spec: the legacy numeric-code table rows
(code, type, condition) that the spec publishes for `Stanza::Error`
(xmpp_stanza.cpp is not in src). -/
def legacyTable : List (Int × Int × Int) :=
  [(400, Modify, BadRequest),
   (401, Auth, NotAuthorized),
   (404, Cancel, ItemNotFound),
   (409, Cancel, Conflict),
   (500, Wait, InternalServerError),
   (501, Cancel, FeatureNotImplemented),
   (503, Cancel, ServiceUnavailable)]

/-- Modelled from the spec: `Stanza::Error::code()` (xmpp_stanza.cpp is not
in src): deterministic lookup of the legacy code for (type, condition) in the
fixed table, 0 when no mapping exists. -/
def code (e : StanzaError) : Int :=
  match legacyTable.find? (fun r => r.2.1 = e.type && r.2.2 = e.condition) with
  | some r => r.1
  | none => 0

/-- Modelled from the spec: `Stanza::Error::fromCode(code)` (xmpp_stanza.cpp
is not in src): the inverse lookup; sets type and condition from the table,
stores the original code, and reports whether the code was recognized. -/
def fromCode (e : StanzaError) (c : Int) : StanzaError × Bool :=
  match legacyTable.find? (fun r => r.1 = c) with
  | some r => ({ e with type := r.2.1, condition := r.2.2, originalCode := c }, true)
  | none => (e, false)

/-- Default-constructed `Stanza::Error` (Cancel, UndefinedCondition, no text,
no app-specific payload). -/
def errorDefault : StanzaError :=
  { type := Cancel, condition := UndefinedCondition, text := "",
    appSpec := none, originalCode := 0 }

/-- Modelled from the spec: `Stanza::Error::fromXml(e, baseNS)`
(xmpp_stanza.cpp is not in src): type from the `type` attribute with Cancel
as the default for a missing or unrecognized value; condition is the first
recognized child element in the error-conditions namespace, else
UndefinedCondition; text from the `text` child in that namespace. -/
def fromXml (e : XmlElem) (baseNS : String) : StanzaError :=
  let t : Int :=
    match attrOf e "type" with
    | "cancel" => Cancel
    | "continue" => Continue
    | "modify" => Modify
    | "auth" => Auth
    | "wait" => Wait
    | _ => Cancel
  let cond : Int :=
    match e.children.find? (fun c =>
        (condNameTable.find? (fun p => p.1 = c.tagName)).isSome
          && attrOf c "xmlns" = nsStanzas) with
    | some c =>
      match condNameTable.find? (fun p => p.1 = c.tagName) with
      | some p => p.2
      | none => UndefinedCondition
    | none => UndefinedCondition
  let txt : String :=
    match e.children.find? (fun c =>
        c.tagName = "text" && attrOf c "xmlns" = nsStanzas) with
    | some c => c.text
    | none => ""
  let _ := baseNS
  { type := t, condition := cond, text := txt, appSpec := none,
    originalCode := 0 }

end StanzaError

/-- `Task::getStanzaErrorFromElement(e, baseNs)` of xmpp_task.cpp: locate an
`error` child of `e`; when absent return none, else parse it with
`Stanza::Error::fromXml`. -/
def getStanzaErrorFromElement (e : XmlElem) (baseNs : String) : Option StanzaError :=
  match findSubTag e "error" with
  | none => none
  | some tag => some (StanzaError.fromXml tag baseNs)

/-- Modelled from the spec: `getErrorFromElement` (xmpp_xmlcommon is not in
src) extracts the coarse (code, text) pair from the reply: the legacy code
and text of the structured error when an `error` child is present, else
(0, empty). -/
def getErrorFromElement (e : XmlElem) (baseNs : String) : Int × String :=
  match getStanzaErrorFromElement e baseNs with
  | some err => (err.code, err.text)
  | none => (0, "")

/-- The private state of a Task (`Task::TaskPrivate` of xmpp_task.cpp),
extended with observation instrumentation: how often the `finished`
notification has fired, whether and how often `SafeDelete::deleteSingle` has
destroyed it, the pending deferred `done` of `onDisconnect`, and the
diagnostics of `go`. -/
structure TaskState where
  success : Bool
  statusCode : Int
  statusString : String
  insig : Bool
  deleteme : Bool
  autoDelete : Bool
  done : Bool
  error : Option StanzaError
  finishedCount : Nat
  destroyed : Bool
  destructionCount : Nat
  pendingDone : Bool
  warnedBrokenConn : Bool
  deleteLaterScheduled : Bool
  onGoCount : Nat

/-- A freshly constructed task (`Task::init` of xmpp_task.cpp): all flags
cleared, no structured error; instrumentation counters start at zero. -/
def initTask : TaskState :=
  { success := false, statusCode := 0, statusString := "",
    insig := false, deleteme := false, autoDelete := false, done := false,
    error := none, finishedCount := 0, destroyed := false,
    destructionCount := 0, pendingDone := false, warnedBrokenConn := false,
    deleteLaterScheduled := false, onGoCount := 0 }

/-- `SafeDelete::deleteSingle(this)`: the task object is destroyed. -/
def deleteSingle (s : TaskState) : TaskState :=
  { s with destroyed := true, destructionCount := s.destructionCount + 1 }

/-- `Task::safeDelete` of xmpp_task.cpp: once `deleteme` is set further calls
return immediately; otherwise mark for deletion and, when not inside the
`finished` notification, destroy at once. -/
def safeDeleteStep (s : TaskState) : TaskState :=
  if s.deleteme then s
  else
    let s1 := { s with deleteme := true }
    if s1.insig then s1 else deleteSingle s1

/-- Calls user code may make on a task: the public mutators reachable from a
`finished` handler or from outside (`setSuccess`, both `setError` overloads,
`safeDelete`). -/
inductive Action where
  | setSuccess (code : Int) (str : String)
  | setErrorCode (code : Int) (str : String)
  | setErrorElem (e : XmlElem)
  | safeDelete

/-- Whether an action is one of the `setSuccess`/`setError` completion
calls. -/
def isSetCall : Action → Bool
  | .setSuccess _ _ => true
  | .setErrorCode _ _ => true
  | .setErrorElem _ => true
  | .safeDelete => false

mutual

/-- One call on the task (xmpp_task.cpp): `setSuccess(code, str)` and both
`setError` overloads guard on `done`, record the outcome and call `done()`;
`safeDelete()` is `safeDeleteStep`.  `baseNS` is the client's
`streamBaseNS()`; `h` is the list of calls the connected `finished` handler
makes back into the task; `fuel` bounds the nesting of notifications. -/
def runAction (fuel : Nat) (baseNS : String) (h : List Action)
    (s : TaskState) : Action → TaskState
  | .setSuccess code str =>
    if s.done then s
    else doneRun fuel baseNS h
      { s with success := true, statusCode := code, statusString := str }
  | .setErrorCode code str =>
    if s.done then s
    else doneRun fuel baseNS h
      { s with success := false, statusCode := code, statusString := str }
  | .setErrorElem e =>
    if s.done then s
    else doneRun fuel baseNS h
      { s with success := false,
               statusCode := (getErrorFromElement e baseNS).1,
               statusString := (getErrorFromElement e baseNS).2,
               error := getStanzaErrorFromElement e baseNS }
  | .safeDelete => safeDeleteStep s
termination_by _a => (fuel, 1, 0)

/-- `Task::done` of xmpp_task.cpp: no-op when already done or inside the
notification; otherwise set the terminal flag, fold `autoDelete` into
`deleteme`, fire `finished` (the handler `h` runs inside the `insig` guard),
and destroy the task afterwards when deletion is pending. -/
def doneRun (fuel : Nat) (baseNS : String) (h : List Action)
    (s : TaskState) : TaskState :=
  match fuel with
  | 0 => s
  | fuel' + 1 =>
    if s.done || s.insig then s
    else
      let s1 := { s with done := true }
      let s2 := if s1.deleteme || s1.autoDelete then { s1 with deleteme := true } else s1
      let s3 := { s2 with insig := true, finishedCount := s2.finishedCount + 1 }
      let s4 := runHandler fuel' baseNS h s3 h
      let s5 := { s4 with insig := false }
      if s5.deleteme then deleteSingle s5 else s5
termination_by (fuel, 0, 0)

/-- Run a list of calls on the task in order. -/
def runHandler (fuel : Nat) (baseNS : String) (h : List Action)
    (s : TaskState) : List Action → TaskState
  | [] => s
  | a :: rest => runHandler fuel baseNS h (runAction fuel baseNS h s a) rest
termination_by l => (fuel, 2, l.length)

end

/-- The `ErrDisc` enumerator of xmpp_task.h (first and only member of an
unscoped enum, hence 0). -/
def ErrDisc : Int := 0

/-- Default arguments of `Task::setSuccess(int code=0, const QString
&str="")` in xmpp_task.h. -/
def setSuccessDefaultCode : Int := 0

def setSuccessDefaultStr : String := ""

/-- `Task::onDisconnect` of xmpp_task.cpp: when not yet done, record the
fixed Disconnected error outcome and schedule `done()` for a later event-loop
turn (`QTimer::singleShot(0, ...)`); nothing runs synchronously. -/
def onDisconnect (s : TaskState) : TaskState :=
  if s.done then s
  else
    { s with success := false, statusCode := ErrDisc,
             statusString := "Disconnected", pendingDone := true }

/-- A later turn of the event loop: the deferred `done()` scheduled by
`onDisconnect` fires, if one is pending. -/
def eventLoopTurn (fuel : Nat) (baseNS : String) (h : List Action)
    (s : TaskState) : TaskState :=
  if s.pendingDone then doneRun fuel baseNS h { s with pendingDone := false }
  else s

/-- `Task::go(autoDelete)` of xmpp_task.cpp: record `autoDelete`; without a
live connected transport emit the broken-connection warning and, when
`autoDelete`, schedule self-destruction via `deleteLater()`, never calling
the `onGo` send hook; with a transport invoke `onGo`. -/
def go (connected : Bool) (auto : Bool) (s : TaskState) : TaskState :=
  let s0 := { s with autoDelete := auto }
  if !connected then
    let s1 := { s0 with warnedBrokenConn := true }
    if auto then { s1 with deleteLaterScheduled := true } else s1
  else
    { s0 with onGoCount := s0.onGoCount + 1 }

/-- `Task::iqVerify(x, to, id, xmlns)` of xmpp_task.cpp. `localJ` is
`client()->jid()`, `srv` is `client()->host()`.  The element must be an `iq`;
the sender rules depend on whether the `from` attribute is empty, one of our
own addresses (bare-compares with our JID or with our domain), or a third
party; then the optional `id` and `xmlns` checks apply. -/
def iqVerify (localJ srv : Jid) (x : XmlElem) (toJ : Jid)
    (id : String) (xmlns : String) : Bool :=
  if x.tagName ≠ "iq" then false
  else
    let fromJ := jidOfString (attrOf x "from")
    let addrOk :=
      if fromJ.isEmpty then
        !(!toJ.isEmpty && !(Jid.compare toJ srv true))
      else if Jid.compare fromJ localJ false
          || Jid.compare fromJ (jidOfString localJ.domain) false then
        !(!toJ.isEmpty && !(Jid.compare toJ localJ false)
            && !(Jid.compare toJ srv true))
      else
        Jid.compare fromJ toJ true
    if !addrOk then false
    else if !id.isEmpty && attrOf x "id" ≠ id then false
    else if !xmlns.isEmpty && queryNS x ≠ xmlns then false
    else true

/-- `Task::errorType` of xmpp_task.cpp: the stored structured error's type,
or 0 when none was captured. -/
def errorType (s : TaskState) : Int :=
  match s.error with
  | some e => e.type
  | none => 0

/-- `Task::errorCondition` of xmpp_task.cpp: the stored structured error's
condition, or 0 when none was captured. -/
def errorCondition (s : TaskState) : Int :=
  match s.error with
  | some e => e.condition
  | none => 0

/-- A child slot of a task in the dispatch tree: a `QObject` child that is
not a Task, a subclass task with an overridden `take`, or a task running the
base `Task::take` over its own children. -/
inductive TChild where
  | nonTask
  | leaf (claim : XmlElem → Bool)
  | node (children : List TChild)

mutual

/-- The virtual `take(x)` of a child: a non-Task never receives it, a
subclass applies its own predicate, a base task scans its children. -/
def taskTake (x : XmlElem) : TChild → Bool
  | .nonTask => false
  | .leaf f => f x
  | .node cs => takeList x cs

/-- `Task::take(x)` of xmpp_task.cpp over the children list: skip children
that are not Tasks, recursively offer `x` to each Task child in registration
order, and return true at the first child that claims it, else false. -/
def takeList (x : XmlElem) : List TChild → Bool
  | [] => false
  | c :: rest =>
    match c with
    | .nonTask => takeList x rest
    | c => if taskTake x c then true else takeList x rest

end

/-- Observable outcome of a task: success flag, status code, status string
and structured error. -/
def observables (s : TaskState) : Bool × Int × String × Option StanzaError :=
  (s.success, s.statusCode, s.statusString, s.error)

/-- The outcome values a completion call records, per xmpp_task.cpp (for a
non-completion action, the state's current outcome). -/
def expectedObs (baseNS : String) (s : TaskState) :
    Action → Bool × Int × String × Option StanzaError
  | .setSuccess code str => (true, code, str, s.error)
  | .setErrorCode code str => (false, code, str, s.error)
  | .setErrorElem e =>
    (false, (getErrorFromElement e baseNS).1, (getErrorFromElement e baseNS).2,
     getStanzaErrorFromElement e baseNS)
  | .safeDelete => observables s

/-- The fields of the task state that only the completion calls may change:
everything except the deletion bookkeeping. -/
def coreEq (s t : TaskState) : Prop :=
  t.success = s.success ∧ t.statusCode = s.statusCode ∧
  t.statusString = s.statusString ∧ t.error = s.error ∧
  t.done = s.done ∧ t.insig = s.insig ∧
  t.finishedCount = s.finishedCount ∧ t.pendingDone = s.pendingDone

theorem coreEq_refl (s : TaskState) : coreEq s s := by
  simp [coreEq]

theorem coreEq_trans {s t u : TaskState} (h1 : coreEq s t) (h2 : coreEq t u) :
    coreEq s u := by
  obtain ⟨a1, a2, a3, a4, a5, a6, a7, a8⟩ := h1
  obtain ⟨b1, b2, b3, b4, b5, b6, b7, b8⟩ := h2
  exact ⟨b1.trans a1, b2.trans a2, b3.trans a3, b4.trans a4, b5.trans a5,
    b6.trans a6, b7.trans a7, b8.trans a8⟩

theorem safeDeleteStep_coreEq (s : TaskState) : coreEq s (safeDeleteStep s) := by
  simp only [safeDeleteStep, deleteSingle, coreEq]
  split
  · simp
  · split <;> simp

theorem runAction_set_done (fuel : Nat) (ns : String) (h : List Action)
    (s : TaskState) (a : Action) (hd : s.done = true) (ha : isSetCall a = true) :
    runAction fuel ns h s a = s := by
  cases a <;> simp_all [runAction, isSetCall]

theorem runAction_done_coreEq (fuel : Nat) (ns : String) (h : List Action)
    (s : TaskState) (a : Action) (hd : s.done = true) :
    coreEq s (runAction fuel ns h s a) := by
  cases a with
  | safeDelete =>
    have : runAction fuel ns h s .safeDelete = safeDeleteStep s := by
      simp [runAction]
    rw [this]
    exact safeDeleteStep_coreEq s
  | setSuccess code str =>
    rw [runAction_set_done fuel ns h s (.setSuccess code str) hd rfl]
    exact coreEq_refl s
  | setErrorCode code str =>
    rw [runAction_set_done fuel ns h s (.setErrorCode code str) hd rfl]
    exact coreEq_refl s
  | setErrorElem e =>
    rw [runAction_set_done fuel ns h s (.setErrorElem e) hd rfl]
    exact coreEq_refl s

theorem runHandler_done_coreEq (fuel : Nat) (ns : String) (h : List Action) :
    ∀ (l : List Action) (s : TaskState), s.done = true →
      coreEq s (runHandler fuel ns h s l) := by
  intro l
  induction l with
  | nil => intro s _; simp [runHandler]; exact coreEq_refl s
  | cons a rest ih =>
    intro s hd
    have h1 : coreEq s (runAction fuel ns h s a) := runAction_done_coreEq fuel ns h s a hd
    have hd1 : (runAction fuel ns h s a).done = true := by
      rw [h1.2.2.2.2.1, hd]
    have h2 := ih (runAction fuel ns h s a) hd1
    have : runHandler fuel ns h s (a :: rest)
        = runHandler fuel ns h (runAction fuel ns h s a) rest := by
      simp [runHandler]
    rw [this]
    exact coreEq_trans h1 h2

theorem runHandler_set_done (fuel : Nat) (ns : String) (h : List Action) :
    ∀ (l : List Action) (s : TaskState), s.done = true →
      (∀ b ∈ l, isSetCall b = true) → runHandler fuel ns h s l = s := by
  intro l
  induction l with
  | nil => intro s _ _; simp [runHandler]
  | cons a rest ih =>
    intro s hd hl
    have ha : isSetCall a = true := hl a (List.mem_cons_self a rest)
    have : runHandler fuel ns h s (a :: rest)
        = runHandler fuel ns h (runAction fuel ns h s a) rest := by
      simp [runHandler]
    rw [this, runAction_set_done fuel ns h s a hd ha]
    exact ih s hd (fun b hb => hl b (List.mem_cons_of_mem a hb))

theorem doneRun_step (fuel : Nat) (ns : String) (h : List Action)
    (s : TaskState) (hd : s.done = false) (hi : s.insig = false) :
    (doneRun (fuel + 1) ns h s).done = true ∧
    (doneRun (fuel + 1) ns h s).insig = false ∧
    (doneRun (fuel + 1) ns h s).finishedCount = s.finishedCount + 1 ∧
    (doneRun (fuel + 1) ns h s).success = s.success ∧
    (doneRun (fuel + 1) ns h s).statusCode = s.statusCode ∧
    (doneRun (fuel + 1) ns h s).statusString = s.statusString ∧
    (doneRun (fuel + 1) ns h s).error = s.error ∧
    (doneRun (fuel + 1) ns h s).pendingDone = s.pendingDone := by
  have hguard : (s.done || s.insig) = false := by rw [hd, hi]; rfl
  rw [doneRun]
  simp only [hguard, Bool.false_eq_true, if_false]
  set s1 : TaskState := { s with done := true } with hs1
  set s2 : TaskState := if s1.deleteme || s1.autoDelete then { s1 with deleteme := true } else s1 with hs2
  set s3 : TaskState := { s2 with insig := true, finishedCount := s2.finishedCount + 1 } with hs3
  have hcore2 : s2.success = s.success ∧ s2.statusCode = s.statusCode ∧
      s2.statusString = s.statusString ∧ s2.error = s.error ∧
      s2.done = true ∧ s2.finishedCount = s.finishedCount ∧
      s2.pendingDone = s.pendingDone := by
    rw [hs2]; split <;> simp [hs1]
  have hd3 : s3.done = true := by rw [hs3]; exact hcore2.2.2.2.2.1
  have hfold := runHandler_done_coreEq fuel ns h h s3 hd3
  set s4 : TaskState := runHandler fuel ns h s3 h with hs4
  obtain ⟨f1, f2, f3, f4, f5, f6, f7, f8⟩ := hfold
  set s5 : TaskState := { s4 with insig := false } with hs5
  have hfin : s5.done = true ∧ s5.insig = false ∧
      s5.finishedCount = s.finishedCount + 1 ∧ s5.success = s.success ∧
      s5.statusCode = s.statusCode ∧ s5.statusString = s.statusString ∧
      s5.error = s.error ∧ s5.pendingDone = s.pendingDone := by
    refine ⟨?_, rfl, ?_, ?_, ?_, ?_, ?_, ?_⟩
    · show s4.done = true; rw [f5, hd3]
    · show s4.finishedCount = s.finishedCount + 1
      rw [f7]; show s2.finishedCount + 1 = s.finishedCount + 1
      rw [hcore2.2.2.2.2.2.1]
    · show s4.success = s.success
      rw [f1]; show s2.success = s.success; exact hcore2.1
    · show s4.statusCode = s.statusCode
      rw [f2]; exact hcore2.2.1
    · show s4.statusString = s.statusString
      rw [f3]; exact hcore2.2.2.1
    · show s4.error = s.error
      rw [f4]; exact hcore2.2.2.2.1
    · show s4.pendingDone = s.pendingDone
      rw [f8]; show s3.pendingDone = s.pendingDone
      show s2.pendingDone = s.pendingDone; exact hcore2.2.2.2.2.2.2
  show (if s5.deleteme then deleteSingle s5 else s5).done = true ∧ _
  split
  · exact hfin
  · exact hfin

/-- C1: on one Task, across any sequence of setSuccess/setError calls, only
the first call's outcome values (success flag, status code, status string,
structured error) are observable afterwards and the finished notification
fires exactly once; every later completion call on the Done task — and in
particular any reentrant one issued from inside the notification handler
`h`, which runs with the task already Done — leaves the state unchanged. -/
theorem task_first_call_wins (fuel : Nat) (ns : String) (h rest : List Action)
    (s0 : TaskState) (a : Action)
    (hd : s0.done = false) (hi : s0.insig = false)
    (ha : isSetCall a = true) (hrest : ∀ b ∈ rest, isSetCall b = true) :
    runHandler (fuel + 1) ns h (runAction (fuel + 1) ns h s0 a) rest
        = runAction (fuel + 1) ns h s0 a ∧
    (runAction (fuel + 1) ns h s0 a).done = true ∧
    (runAction (fuel + 1) ns h s0 a).finishedCount = s0.finishedCount + 1 ∧
    observables (runAction (fuel + 1) ns h s0 a) = expectedObs ns s0 a := by
  cases a with
  | safeDelete => simp [isSetCall] at ha
  | setSuccess code str =>
    have hra : runAction (fuel + 1) ns h s0 (.setSuccess code str)
        = doneRun (fuel + 1) ns h
            { s0 with success := true, statusCode := code, statusString := str } := by
      simp [runAction, hd]
    obtain ⟨q1, q2, q3, q4, q5, q6, q7, q8⟩ :=
      doneRun_step fuel ns h
        { s0 with success := true, statusCode := code, statusString := str } hd hi
    refine ⟨?_, ?_, ?_, ?_⟩
    · rw [hra]
      exact runHandler_set_done (fuel + 1) ns h rest _ q1 hrest
    · rw [hra]; exact q1
    · rw [hra]; exact q3
    · rw [hra]
      simp [observables, expectedObs, q4, q5, q6, q7]
  | setErrorCode code str =>
    have hra : runAction (fuel + 1) ns h s0 (.setErrorCode code str)
        = doneRun (fuel + 1) ns h
            { s0 with success := false, statusCode := code, statusString := str } := by
      simp [runAction, hd]
    obtain ⟨q1, q2, q3, q4, q5, q6, q7, q8⟩ :=
      doneRun_step fuel ns h
        { s0 with success := false, statusCode := code, statusString := str } hd hi
    refine ⟨?_, ?_, ?_, ?_⟩
    · rw [hra]
      exact runHandler_set_done (fuel + 1) ns h rest _ q1 hrest
    · rw [hra]; exact q1
    · rw [hra]; exact q3
    · rw [hra]
      simp [observables, expectedObs, q4, q5, q6, q7]
  | setErrorElem e =>
    have hra : runAction (fuel + 1) ns h s0 (.setErrorElem e)
        = doneRun (fuel + 1) ns h
            { s0 with success := false,
                      statusCode := (getErrorFromElement e ns).1,
                      statusString := (getErrorFromElement e ns).2,
                      error := getStanzaErrorFromElement e ns } := by
      simp [runAction, hd]
    obtain ⟨q1, q2, q3, q4, q5, q6, q7, q8⟩ :=
      doneRun_step fuel ns h
        { s0 with success := false,
                  statusCode := (getErrorFromElement e ns).1,
                  statusString := (getErrorFromElement e ns).2,
                  error := getStanzaErrorFromElement e ns } hd hi
    refine ⟨?_, ?_, ?_, ?_⟩
    · rw [hra]
      exact runHandler_set_done (fuel + 1) ns h rest _ q1 hrest
    · rw [hra]; exact q1
    · rw [hra]; exact q3
    · rw [hra]
      simp [observables, expectedObs, q4, q5, q6, q7]

/-- Witness for C1 at a concrete task: a fresh task receives `setSuccess 0`
and then a late `setError 5`; the late call changes nothing, the
notification fired once, and the observable outcome is the first call's. -/
theorem task_first_call_wins_witness :
    runHandler 1 "jabber:client" []
        (runAction 1 "jabber:client" [] initTask (.setSuccess 0 ""))
        [.setErrorCode 5 "fail"]
      = runAction 1 "jabber:client" [] initTask (.setSuccess 0 "") ∧
    (runAction 1 "jabber:client" [] initTask (.setSuccess 0 "")).done = true ∧
    (runAction 1 "jabber:client" [] initTask (.setSuccess 0 "")).finishedCount
      = initTask.finishedCount + 1 ∧
    observables (runAction 1 "jabber:client" [] initTask (.setSuccess 0 ""))
      = expectedObs "jabber:client" initTask (.setSuccess 0 "") :=
  task_first_call_wins 0 "jabber:client" [] [.setErrorCode 5 "fail"] initTask
    (.setSuccess 0 "") rfl rfl rfl
    (by intro b hb; simp at hb; subst hb; rfl)

theorem runHandler_marked_safeDelete (fuel : Nat) (ns : String) (h : List Action) :
    ∀ (n : Nat) (s : TaskState), s.deleteme = true →
      runHandler fuel ns h s (List.replicate n .safeDelete) = s := by
  intro n
  induction n with
  | zero => intro s _; simp [runHandler]
  | succ k ih =>
    intro s hdm
    have h1 : List.replicate (k + 1) Action.safeDelete
        = Action.safeDelete :: List.replicate k Action.safeDelete := rfl
    have h2 : runHandler fuel ns h s
          (Action.safeDelete :: List.replicate k Action.safeDelete)
        = runHandler fuel ns h (runAction fuel ns h s .safeDelete)
            (List.replicate k .safeDelete) := by
      simp [runHandler]
    have h3 : runAction fuel ns h s .safeDelete = s := by
      simp [runAction, safeDeleteStep, hdm]
    rw [h1, h2, h3]
    exact ih s hdm

theorem doneRun_unfold (fuel : Nat) (ns : String) (h : List Action)
    (s : TaskState) (hdone : s.done = false) (hinsig : s.insig = false)
    (hdm : (s.deleteme || s.autoDelete) = false) :
    doneRun (fuel + 1) ns h s
      = (let s3 : TaskState :=
           { s with done := true, insig := true,
                    finishedCount := s.finishedCount + 1 };
         let s4 := runHandler fuel ns h s3 h;
         let s5 : TaskState := { s4 with insig := false };
         if s5.deleteme then deleteSingle s5 else s5) := by
  have hguard : (s.done || s.insig) = false := by rw [hdone, hinsig]; rfl
  rw [doneRun]
  simp only [hguard, Bool.false_eq_true, if_false, hdm]

theorem doneRun_safeDelete_handler (fuel n : Nat) (ns : String) (s : TaskState)
    (hdone : s.done = false) (hinsig : s.insig = false)
    (hdm : s.deleteme = false) (hauto : s.autoDelete = false) :
    doneRun (fuel + 1) ns (.safeDelete :: List.replicate n .safeDelete) s
      = deleteSingle
          { s with done := true, insig := false,
                   finishedCount := s.finishedCount + 1, deleteme := true } := by
  have hor : (s.deleteme || s.autoDelete) = false := by rw [hdm, hauto]; rfl
  rw [doneRun_unfold fuel ns (.safeDelete :: List.replicate n .safeDelete) s
    hdone hinsig hor]
  have hstep : runAction fuel ns (.safeDelete :: List.replicate n .safeDelete)
        ({ s with done := true, insig := true,
                  finishedCount := s.finishedCount + 1 }) .safeDelete
      = { s with done := true, insig := true,
                 finishedCount := s.finishedCount + 1, deleteme := true } := by
    simp [runAction, safeDeleteStep, hdm]
  have hrun : runHandler fuel ns (.safeDelete :: List.replicate n .safeDelete)
        ({ s with done := true, insig := true,
                  finishedCount := s.finishedCount + 1 })
        (.safeDelete :: List.replicate n .safeDelete)
      = { s with done := true, insig := true,
                 finishedCount := s.finishedCount + 1, deleteme := true } := by
    have h1 : runHandler fuel ns (.safeDelete :: List.replicate n .safeDelete)
          ({ s with done := true, insig := true,
                    finishedCount := s.finishedCount + 1 })
          (.safeDelete :: List.replicate n .safeDelete)
        = runHandler fuel ns (.safeDelete :: List.replicate n .safeDelete)
            (runAction fuel ns (.safeDelete :: List.replicate n .safeDelete)
              ({ s with done := true, insig := true,
                        finishedCount := s.finishedCount + 1 }) .safeDelete)
            (List.replicate n .safeDelete) := by
      simp [runHandler]
    rw [h1, hstep]
    exact runHandler_marked_safeDelete fuel ns
      (.safeDelete :: List.replicate n .safeDelete) n _ rfl
  simp only [hrun]
  simp

/-- C2: `safeDelete` called while the task is inside its own completion
notification (`insig`) does not free the task then — it only marks it — and
the destruction happens once, performed by the completion routine after the
notification returns, no matter how many times `safeDelete` is called from
the handler; repeated `safeDelete` calls outside a notification destroy at
most once; and a `safeDelete` while not inside a notification destroys
immediately. -/
theorem task_safe_delete_protocol (fuel n : Nat) (ns : String) (h : List Action)
    (s : TaskState) :
    (s.insig = true → s.deleteme = false →
        (safeDeleteStep s).destroyed = s.destroyed ∧
        (safeDeleteStep s).destructionCount = s.destructionCount ∧
        (safeDeleteStep s).deleteme = true) ∧
    (s.insig = false → s.deleteme = false →
        (safeDeleteStep s).destroyed = true ∧
        (safeDeleteStep s).destructionCount = s.destructionCount + 1) ∧
    (s.deleteme = false → s.insig = false →
        (runHandler fuel ns h s (List.replicate n .safeDelete)).destructionCount
          ≤ s.destructionCount + 1) ∧
    (s.done = false → s.insig = false → s.deleteme = false → s.autoDelete = false →
        (doneRun (fuel + 1) ns (.safeDelete :: List.replicate n .safeDelete) s).destroyed = true ∧
        (doneRun (fuel + 1) ns (.safeDelete :: List.replicate n .safeDelete) s).destructionCount
          = s.destructionCount + 1 ∧
        (doneRun (fuel + 1) ns (.safeDelete :: List.replicate n .safeDelete) s).finishedCount
          = s.finishedCount + 1) := by
  refine ⟨?_, ?_, ?_, ?_⟩
  · intro hi hdm
    simp [safeDeleteStep, hdm, hi]
  · intro hi hdm
    simp [safeDeleteStep, hdm, hi, deleteSingle]
  · intro hdm hi
    cases n with
    | zero =>
      have : runHandler fuel ns h s (List.replicate 0 .safeDelete) = s := by
        simp [runHandler, List.replicate]
      rw [this]
      exact Nat.le_succ _
    | succ k =>
      have h1 : List.replicate (k + 1) Action.safeDelete
          = Action.safeDelete :: List.replicate k Action.safeDelete := rfl
      have h2 : runHandler fuel ns h s
            (Action.safeDelete :: List.replicate k Action.safeDelete)
          = runHandler fuel ns h (runAction fuel ns h s .safeDelete)
              (List.replicate k .safeDelete) := by
        simp [runHandler]
      have h3 : runAction fuel ns h s .safeDelete
          = deleteSingle { s with deleteme := true } := by
        simp [runAction, safeDeleteStep, hdm, hi]
      have h4 : runHandler fuel ns h (deleteSingle { s with deleteme := true })
            (List.replicate k .safeDelete)
          = deleteSingle { s with deleteme := true } :=
        runHandler_marked_safeDelete fuel ns h k _ rfl
      rw [h1, h2, h3, h4]
      exact Nat.le_refl _
  · intro hdone hi hdm hauto
    rw [doneRun_safeDelete_handler fuel n ns s hdone hi hdm hauto]
    exact ⟨rfl, rfl, rfl⟩

/-- Witness for C2 at a concrete fresh task, with two `safeDelete` calls
issued from inside the completion notification. -/
theorem task_safe_delete_protocol_witness :
    (initTask.insig = true → initTask.deleteme = false →
        (safeDeleteStep initTask).destroyed = initTask.destroyed ∧
        (safeDeleteStep initTask).destructionCount = initTask.destructionCount ∧
        (safeDeleteStep initTask).deleteme = true) ∧
    (initTask.insig = false → initTask.deleteme = false →
        (safeDeleteStep initTask).destroyed = true ∧
        (safeDeleteStep initTask).destructionCount = initTask.destructionCount + 1) ∧
    (initTask.deleteme = false → initTask.insig = false →
        (runHandler 0 "jabber:client" [] initTask
            (List.replicate 1 .safeDelete)).destructionCount
          ≤ initTask.destructionCount + 1) ∧
    (initTask.done = false → initTask.insig = false →
        initTask.deleteme = false → initTask.autoDelete = false →
        (doneRun 1 "jabber:client" (.safeDelete :: List.replicate 1 .safeDelete)
            initTask).destroyed = true ∧
        (doneRun 1 "jabber:client" (.safeDelete :: List.replicate 1 .safeDelete)
            initTask).destructionCount = initTask.destructionCount + 1 ∧
        (doneRun 1 "jabber:client" (.safeDelete :: List.replicate 1 .safeDelete)
            initTask).finishedCount = initTask.finishedCount + 1) :=
  task_safe_delete_protocol 0 1 "jabber:client" [] initTask

theorem takeList_eq_any (x : XmlElem) :
    ∀ cs : List TChild, takeList x cs = cs.any (taskTake x) := by
  intro cs
  induction cs with
  | nil => simp [takeList]
  | cons c rest ih =>
    cases c with
    | nonTask => simp [takeList, taskTake, ih]
    | leaf f =>
      cases hf : f x <;> simp [takeList, taskTake, hf, ih]
    | node cs2 =>
      cases hn : takeList x cs2 <;> simp [takeList, taskTake, hn, ih]

/-- C3: the base `Task::take` scans the task's children in registration
order, skipping children that are not Tasks, recursively invoking `take` on
each Task child; it returns true at the first child whose `take` claims `x`
— independently of the later siblings, which are never consulted — and false
when no child claims `x`; the base implementation itself never claims `x`
(on a childless task it returns false, and on any children list it only
delegates). -/
theorem task_take_dispatch (x : XmlElem) (pre post cs : List TChild) (c : TChild)
    (hpre : ∀ d ∈ pre, taskTake x d = false) (hc : taskTake x c = true) :
    takeList x (pre ++ c :: post) = true ∧
    takeList x (pre ++ c :: post) = takeList x (pre ++ [c]) ∧
    ((∀ d ∈ cs, taskTake x d = false) → takeList x cs = false) ∧
    takeList x (.nonTask :: cs) = takeList x cs ∧
    taskTake x (.node cs) = takeList x cs ∧
    takeList x ([] : List TChild) = false := by
  refine ⟨?_, ?_, ?_, ?_, by simp [taskTake], by simp [takeList]⟩
  · rw [takeList_eq_any]
    simp only [List.any_eq_true]
    exact ⟨c, by simp, hc⟩
  · rw [takeList_eq_any, takeList_eq_any]
    simp [List.any_append, hc]
  · intro hall
    rw [takeList_eq_any]
    simp only [List.any_eq_false]
    intro d hd
    simp [hall d hd]
  · rw [takeList_eq_any, takeList_eq_any]
    simp [taskTake]

/-- Witness for C3 on a concrete tree: a non-Task child and a non-claiming
leaf precede the claiming leaf; a later sibling would claim everything but
is never reached. -/
theorem task_take_dispatch_witness :
    takeList (.mk "iq" [] "" [])
        ([.nonTask, .leaf (fun _ => false)]
          ++ (.leaf (fun e => e.tagName = "iq")) :: [.leaf (fun _ => true)]) = true ∧
    takeList (.mk "iq" [] "" [])
        ([.nonTask, .leaf (fun _ => false)]
          ++ (.leaf (fun e => e.tagName = "iq")) :: [.leaf (fun _ => true)])
      = takeList (.mk "iq" [] "" [])
          ([.nonTask, .leaf (fun _ => false)]
            ++ [.leaf (fun e => e.tagName = "iq")]) ∧
    ((∀ d ∈ ([.nonTask] : List TChild), taskTake (.mk "iq" [] "" []) d = false) →
        takeList (.mk "iq" [] "" []) [.nonTask] = false) ∧
    takeList (.mk "iq" [] "" []) (.nonTask :: [.nonTask])
      = takeList (.mk "iq" [] "" []) [.nonTask] ∧
    taskTake (.mk "iq" [] "" []) (.node [.nonTask])
      = takeList (.mk "iq" [] "" []) [.nonTask] ∧
    takeList (.mk "iq" [] "" []) ([] : List TChild) = false :=
  task_take_dispatch (.mk "iq" [] "" [])
    [.nonTask, .leaf (fun _ => false)] [.leaf (fun _ => true)] [.nonTask]
    (.leaf (fun e => e.tagName = "iq"))
    (by intro d hd
        simp only [List.mem_cons, List.not_mem_nil, or_false] at hd
        rcases hd with rfl | rfl <;> rfl)
    (by rfl)

/-- Counterexample to C5 as stated: with our address alice@example.org/home
and server example.org, a reply whose sender is example.org — neither empty
nor our full or bare address — with an empty `to` is accepted by the code
although the sender does not exactly equal `to`: the code's
`from.compare(local.domain(), false)` test routes such a sender into the
self/server branch instead of the exact-equality rule. -/
theorem task_iq_verify_third_party_cex :
    iqVerify ⟨"alice", "example.org", "home"⟩ ⟨"", "example.org", ""⟩
      (.mk "iq" [("from", "example.org")] "" []) ⟨"", "", ""⟩ "" "" = true ∧
    (jidOfString (attrOf (XmlElem.mk "iq" [("from", "example.org")] "" [])
        "from")).isEmpty = false ∧
    jidOfString (attrOf (XmlElem.mk "iq" [("from", "example.org")] "" []) "from")
      ≠ (⟨"alice", "example.org", "home"⟩ : Jid) ∧
    jidOfString (attrOf (XmlElem.mk "iq" [("from", "example.org")] "" []) "from")
      ≠ Jid.bare ⟨"alice", "example.org", "home"⟩ ∧
    Jid.compare
      (jidOfString (attrOf (XmlElem.mk "iq" [("from", "example.org")] "" []) "from"))
      ⟨"", "", ""⟩ true = false := by
  refine ⟨by decide, by decide, by decide, by decide, by decide⟩

/-- C5 (amended): `iqVerify(x, to, id, xmlns)` returns true only if every
applicable rule passes: `x` is an `iq`; a sender that is neither empty nor
treated as our own by the code — bare-comparing equal to our JID or to our
domain — exactly equals `to`; a non-empty `id` argument exactly equals the
element's id attribute; and a non-empty `xmlns` argument exactly equals the
first query-namespace found in `x`. -/
theorem task_iq_verify_only_if (localJ srv toJ : Jid) (x : XmlElem)
    (id ns : String)
    (hiq : iqVerify localJ srv x toJ id ns = true) :
    x.tagName = "iq" ∧
    ((jidOfString (attrOf x "from")).isEmpty = false →
      Jid.compare (jidOfString (attrOf x "from")) localJ false = false →
      Jid.compare (jidOfString (attrOf x "from"))
        (jidOfString localJ.domain) false = false →
      Jid.compare (jidOfString (attrOf x "from")) toJ true = true) ∧
    (id ≠ "" → attrOf x "id" = id) ∧
    (ns ≠ "" → queryNS x = ns) := by
  rw [iqVerify] at hiq
  simp at hiq
  obtain ⟨htag, haddr, hid, hns⟩ := hiq
  refine ⟨htag, ?_, ?_, ?_⟩
  · intro hfe hb1 hb2
    simp [hfe, hb1, hb2] at haddr
    exact haddr
  · intro hidne
    rcases hid with h | h
    · exact absurd ((String.isEmpty_iff id).mp h) hidne
    · exact h
  · intro hnsne
    rcases hns with h | h
    · exact absurd ((String.isEmpty_iff ns).mp h) hnsne
    · exact h

/-- Witness for C5: a third-party reply with matching id and namespace. -/
theorem task_iq_verify_only_if_witness :
    (XmlElem.mk "iq" [("from", "bob@x.org"), ("id", "42")] ""
        [.mk "query" [("xmlns", "a:b")] "" []]).tagName = "iq" ∧
    ((jidOfString (attrOf (XmlElem.mk "iq" [("from", "bob@x.org"), ("id", "42")] ""
          [.mk "query" [("xmlns", "a:b")] "" []]) "from")).isEmpty = false →
      Jid.compare (jidOfString (attrOf (XmlElem.mk "iq"
          [("from", "bob@x.org"), ("id", "42")] ""
          [.mk "query" [("xmlns", "a:b")] "" []]) "from"))
        ⟨"alice", "example.org", "home"⟩ false = false →
      Jid.compare (jidOfString (attrOf (XmlElem.mk "iq"
          [("from", "bob@x.org"), ("id", "42")] ""
          [.mk "query" [("xmlns", "a:b")] "" []]) "from"))
        (jidOfString (Jid.domain ⟨"alice", "example.org", "home"⟩)) false = false →
      Jid.compare (jidOfString (attrOf (XmlElem.mk "iq"
          [("from", "bob@x.org"), ("id", "42")] ""
          [.mk "query" [("xmlns", "a:b")] "" []]) "from"))
        ⟨"bob", "x.org", ""⟩ true = true) ∧
    ("42" ≠ "" → attrOf (XmlElem.mk "iq" [("from", "bob@x.org"), ("id", "42")] ""
        [.mk "query" [("xmlns", "a:b")] "" []]) "id" = "42") ∧
    ("a:b" ≠ "" → queryNS (XmlElem.mk "iq" [("from", "bob@x.org"), ("id", "42")] ""
        [.mk "query" [("xmlns", "a:b")] "" []]) = "a:b") :=
  task_iq_verify_only_if ⟨"alice", "example.org", "home"⟩ ⟨"", "example.org", ""⟩
    ⟨"bob", "x.org", ""⟩
    (.mk "iq" [("from", "bob@x.org"), ("id", "42")] ""
      [.mk "query" [("xmlns", "a:b")] "" []])
    "42" "a:b" (by decide)

/-- Counterexample to C4 as stated: with our address alice@example.org/home
and server example.org, a reply from our bare address alice@example.org with
`to` = alice@example.org/work is accepted by the code, although that `to` is
not empty, not equal to our bare address (it carries a resource) and not
equal to the server address: the code compares `to` against our address with
the resource ignored. -/
theorem task_iq_verify_sender_self_cex :
    jidOfString (attrOf (XmlElem.mk "iq" [("from", "alice@example.org")] "" []) "from")
      = Jid.bare ⟨"alice", "example.org", "home"⟩ ∧
    iqVerify ⟨"alice", "example.org", "home"⟩ ⟨"", "example.org", ""⟩
      (.mk "iq" [("from", "alice@example.org")] "" [])
      ⟨"alice", "example.org", "work"⟩ "" "" = true ∧
    (Jid.isEmpty ⟨"alice", "example.org", "work"⟩) = false ∧
    (⟨"alice", "example.org", "work"⟩ : Jid)
      ≠ Jid.bare ⟨"alice", "example.org", "home"⟩ ∧
    (⟨"alice", "example.org", "work"⟩ : Jid) ≠ (⟨"", "example.org", ""⟩ : Jid) ∧
    Jid.compare ⟨"alice", "example.org", "work"⟩ ⟨"", "example.org", ""⟩ true
      = false := by
  refine ⟨by decide, by decide, by decide, by decide, by decide, by decide⟩

/-- C4 (amended): with an empty sender, `iqVerify` accepts only when `to` is
empty or `to` equals the server address; with a sender equal to our full or
bare address, it accepts only when `to` is empty, or `to` bare-compares
equal to our address (resource ignored), or `to` equals the server
address. -/
theorem task_iq_verify_sender_rules (localJ srv toJ : Jid) (x : XmlElem)
    (id ns : String)
    (hiq : iqVerify localJ srv x toJ id ns = true) :
    ((jidOfString (attrOf x "from")).isEmpty = true →
      toJ.isEmpty = true ∨ Jid.compare toJ srv true = true) ∧
    ((jidOfString (attrOf x "from") = localJ
        ∨ jidOfString (attrOf x "from") = Jid.bare localJ) →
      (jidOfString (attrOf x "from")).isEmpty = false →
      toJ.isEmpty = true ∨ Jid.compare toJ localJ false = true
        ∨ Jid.compare toJ srv true = true) := by
  rw [iqVerify] at hiq
  simp at hiq
  obtain ⟨htag, haddr, hid, hns⟩ := hiq
  constructor
  · intro hfe
    simp [hfe] at haddr
    by_cases h1 : toJ.isEmpty = true
    · exact Or.inl h1
    · have h1f : toJ.isEmpty = false := by simpa using h1
      exact Or.inr (haddr h1f)
  · intro hown hfe
    have hcmp : Jid.compare (jidOfString (attrOf x "from")) localJ false = true := by
      rcases hown with h | h <;> rw [h] <;> simp [Jid.compare, Jid.bare]
    simp [hfe, hcmp] at haddr
    by_cases h1 : toJ.isEmpty = true
    · exact Or.inl h1
    have h1f : toJ.isEmpty = false := by simpa using h1
    by_cases h2 : Jid.compare toJ localJ false = true
    · exact Or.inr (Or.inl h2)
    · have h2f : Jid.compare toJ localJ false = false := by simpa using h2
      exact Or.inr (Or.inr (haddr h1f h2f))

/-- Witness for the amended C4: an empty-sender reply addressed to the
server, and a bare-self-sender reply addressed to our own full address. -/
theorem task_iq_verify_sender_rules_witness :
    ((jidOfString (attrOf (XmlElem.mk "iq" [("from", "alice@example.org")] "" [])
          "from")).isEmpty = true →
      (Jid.isEmpty ⟨"alice", "example.org", "work"⟩) = true
        ∨ Jid.compare ⟨"alice", "example.org", "work"⟩ ⟨"", "example.org", ""⟩ true
            = true) ∧
    ((jidOfString (attrOf (XmlElem.mk "iq" [("from", "alice@example.org")] "" [])
          "from") = ⟨"alice", "example.org", "home"⟩
        ∨ jidOfString (attrOf (XmlElem.mk "iq" [("from", "alice@example.org")] "" [])
            "from") = Jid.bare ⟨"alice", "example.org", "home"⟩) →
      (jidOfString (attrOf (XmlElem.mk "iq" [("from", "alice@example.org")] "" [])
          "from")).isEmpty = false →
      (Jid.isEmpty ⟨"alice", "example.org", "work"⟩) = true
        ∨ Jid.compare ⟨"alice", "example.org", "work"⟩
            ⟨"alice", "example.org", "home"⟩ false = true
        ∨ Jid.compare ⟨"alice", "example.org", "work"⟩ ⟨"", "example.org", ""⟩ true
            = true) :=
  task_iq_verify_sender_rules ⟨"alice", "example.org", "home"⟩
    ⟨"", "example.org", ""⟩ ⟨"alice", "example.org", "work"⟩
    (.mk "iq" [("from", "alice@example.org")] "" []) "" "" (by decide)

/-- C6: a task not yet Done when the connection disconnects records the
Done{Error} outcome with the fixed "Disconnected" status, but nothing is
executed synchronously inside the disconnect callback — the terminal flag
stays clear, the notification has not fired and nothing is destroyed; the
completion only happens on a later event-loop turn, where the deferred
`done()` fires once; a task already Done is left unchanged. -/
theorem task_disconnect_deferred (fuel : Nat) (ns : String) (h : List Action)
    (s : TaskState) :
    (s.done = false →
      (onDisconnect s).done = false ∧
      (onDisconnect s).finishedCount = s.finishedCount ∧
      (onDisconnect s).destroyed = s.destroyed ∧
      (onDisconnect s).success = false ∧
      (onDisconnect s).statusCode = ErrDisc ∧
      (onDisconnect s).statusString = "Disconnected" ∧
      (onDisconnect s).pendingDone = true ∧
      (s.insig = false →
        (eventLoopTurn (fuel + 1) ns h (onDisconnect s)).done = true ∧
        (eventLoopTurn (fuel + 1) ns h (onDisconnect s)).finishedCount
          = s.finishedCount + 1 ∧
        (eventLoopTurn (fuel + 1) ns h (onDisconnect s)).success = false ∧
        (eventLoopTurn (fuel + 1) ns h (onDisconnect s)).statusCode = ErrDisc ∧
        (eventLoopTurn (fuel + 1) ns h (onDisconnect s)).statusString
          = "Disconnected")) ∧
    (s.done = true → onDisconnect s = s) := by
  constructor
  · intro hd
    have ho : onDisconnect s
        = { s with success := false, statusCode := ErrDisc,
                   statusString := "Disconnected", pendingDone := true } := by
      simp [onDisconnect, hd]
    rw [ho]
    refine ⟨hd, rfl, rfl, rfl, rfl, rfl, rfl, ?_⟩
    intro hins
    have he : eventLoopTurn (fuel + 1) ns h
          ({ s with success := false, statusCode := ErrDisc,
                    statusString := "Disconnected", pendingDone := true })
        = doneRun (fuel + 1) ns h
            ({ s with success := false, statusCode := ErrDisc,
                      statusString := "Disconnected", pendingDone := false }) := by
      simp [eventLoopTurn]
    obtain ⟨q1, q2, q3, q4, q5, q6, q7, q8⟩ :=
      doneRun_step fuel ns h
        ({ s with success := false, statusCode := ErrDisc,
                  statusString := "Disconnected", pendingDone := false }) hd hins
    rw [he]
    exact ⟨q1, q3, q4, q5, q6⟩
  · intro hd
    simp [onDisconnect, hd]

/-- Witness for C6 at a concrete fresh task. -/
theorem task_disconnect_deferred_witness :
    (onDisconnect initTask).done = false ∧
    (onDisconnect initTask).finishedCount = initTask.finishedCount ∧
    (onDisconnect initTask).destroyed = initTask.destroyed ∧
    (onDisconnect initTask).success = false ∧
    (onDisconnect initTask).statusCode = ErrDisc ∧
    (onDisconnect initTask).statusString = "Disconnected" ∧
    (onDisconnect initTask).pendingDone = true ∧
    (eventLoopTurn 1 "jabber:client" [] (onDisconnect initTask)).done = true ∧
    (eventLoopTurn 1 "jabber:client" [] (onDisconnect initTask)).finishedCount
      = initTask.finishedCount + 1 ∧
    (eventLoopTurn 1 "jabber:client" [] (onDisconnect initTask)).success = false ∧
    (eventLoopTurn 1 "jabber:client" [] (onDisconnect initTask)).statusCode
      = ErrDisc ∧
    (eventLoopTurn 1 "jabber:client" [] (onDisconnect initTask)).statusString
      = "Disconnected" := by
  obtain ⟨w1, _⟩ := task_disconnect_deferred 0 "jabber:client" [] initTask
  obtain ⟨a1, a2, a3, a4, a5, a6, a7, a8⟩ := w1 rfl
  obtain ⟨b1, b2, b3, b4, b5⟩ := a8 rfl
  exact ⟨a1, a2, a3, a4, a5, a6, a7, b1, b2, b3, b4, b5⟩

/-- C7: `errorType`/`errorCondition` return 0 when no structured Error was
captured and the stored Error's enum value otherwise; a structured Error is
captured by `setError(element)` exactly when the element has an `error`
child: `getStanzaErrorFromElement` returns none precisely when no `error`
child exists, and otherwise the result of parsing the first `error` child
with `Stanza::Error::fromXml`. -/
theorem task_error_channels (s st : TaskState) (err : StanzaError)
    (e : XmlElem) (ns : String) (fuel : Nat) (h : List Action) :
    (s.error = none → errorType s = 0 ∧ errorCondition s = 0) ∧
    (s.error = some err →
      errorType s = err.type ∧ errorCondition s = err.condition) ∧
    (getStanzaErrorFromElement e ns = none
      ↔ ∀ c ∈ e.children, ¬(c.tagName = "error")) ∧
    (∀ c, findSubTag e "error" = some c →
      getStanzaErrorFromElement e ns = some (StanzaError.fromXml c ns)) ∧
    (st.done = false → st.insig = false →
      (runAction (fuel + 1) ns h st (.setErrorElem e)).error
        = getStanzaErrorFromElement e ns) := by
  refine ⟨?_, ?_, ?_, ?_, ?_⟩
  · intro hn
    simp [errorType, errorCondition, hn]
  · intro hs
    simp [errorType, errorCondition, hs]
  · constructor
    · intro hnone c hc htag
      rcases hfind : findSubTag e "error" with _ | t
      · rw [findSubTag, List.find?_eq_none] at hfind
        exact hfind c hc (by simp [htag])
      · rw [getStanzaErrorFromElement, hfind] at hnone
        simp at hnone
    · intro hall
      rw [getStanzaErrorFromElement]
      rcases hfind : findSubTag e "error" with _ | t
      · simp
      · exfalso
        rw [findSubTag] at hfind
        have ht := List.find?_some hfind
        have hmem := List.mem_of_find?_eq_some hfind
        simp at ht
        exact hall t hmem ht
  · intro c hc
    rw [getStanzaErrorFromElement, hc]
  · intro hd hins
    have hra : runAction (fuel + 1) ns h st (.setErrorElem e)
        = doneRun (fuel + 1) ns h
            { st with success := false,
                      statusCode := (getErrorFromElement e ns).1,
                      statusString := (getErrorFromElement e ns).2,
                      error := getStanzaErrorFromElement e ns } := by
      simp [runAction, hd]
    obtain ⟨q1, q2, q3, q4, q5, q6, q7, q8⟩ :=
      doneRun_step fuel ns h
        { st with success := false,
                  statusCode := (getErrorFromElement e ns).1,
                  statusString := (getErrorFromElement e ns).2,
                  error := getStanzaErrorFromElement e ns } hd hins
    rw [hra]
    exact q7

/-- Witness for C7: a task holding a parsed service-unavailable error, a
reply element with an `error` child, and a reply element without one. -/
theorem task_error_channels_witness :
    (({ initTask with
          error := some (StanzaError.fromXml
            (.mk "error" [("type", "cancel")] ""
              [.mk "service-unavailable"
                [("xmlns", "urn:ietf:params:xml:ns:xmpp-stanzas")] "" []])
            "jabber:client") } : TaskState).error
        = some (StanzaError.fromXml
            (.mk "error" [("type", "cancel")] ""
              [.mk "service-unavailable"
                [("xmlns", "urn:ietf:params:xml:ns:xmpp-stanzas")] "" []])
            "jabber:client") →
      errorType ({ initTask with
          error := some (StanzaError.fromXml
            (.mk "error" [("type", "cancel")] ""
              [.mk "service-unavailable"
                [("xmlns", "urn:ietf:params:xml:ns:xmpp-stanzas")] "" []])
            "jabber:client") })
        = (StanzaError.fromXml
            (.mk "error" [("type", "cancel")] ""
              [.mk "service-unavailable"
                [("xmlns", "urn:ietf:params:xml:ns:xmpp-stanzas")] "" []])
            "jabber:client").type ∧
      errorCondition ({ initTask with
          error := some (StanzaError.fromXml
            (.mk "error" [("type", "cancel")] ""
              [.mk "service-unavailable"
                [("xmlns", "urn:ietf:params:xml:ns:xmpp-stanzas")] "" []])
            "jabber:client") })
        = (StanzaError.fromXml
            (.mk "error" [("type", "cancel")] ""
              [.mk "service-unavailable"
                [("xmlns", "urn:ietf:params:xml:ns:xmpp-stanzas")] "" []])
            "jabber:client").condition) ∧
    (errorType initTask = 0 ∧ errorCondition initTask = 0) ∧
    (getStanzaErrorFromElement (.mk "iq" [("type", "result")] "" []) "jabber:client"
      = none) ∧
    ((runAction 1 "jabber:client" [] initTask
        (.setErrorElem (.mk "iq" [("type", "error")] ""
          [.mk "error" [("type", "cancel")] ""
            [.mk "item-not-found"
              [("xmlns", "urn:ietf:params:xml:ns:xmpp-stanzas")] "" []]]))).error
      = getStanzaErrorFromElement
          (.mk "iq" [("type", "error")] ""
            [.mk "error" [("type", "cancel")] ""
              [.mk "item-not-found"
                [("xmlns", "urn:ietf:params:xml:ns:xmpp-stanzas")] "" []]])
          "jabber:client") := by
  refine ⟨?_, ?_, ?_, ?_⟩
  · exact fun hs => (task_error_channels _ initTask _ (.mk "iq" [] "" [])
      "jabber:client" 0 []).2.1 hs
  · exact (task_error_channels initTask initTask StanzaError.errorDefault
      (.mk "iq" [] "" []) "jabber:client" 0 []).1 rfl
  · exact (task_error_channels initTask initTask StanzaError.errorDefault
      (.mk "iq" [("type", "result")] "" []) "jabber:client" 0 []).2.2.1.mpr
      (by intro c hc; simp [XmlElem.children] at hc)
  · exact (task_error_channels initTask initTask StanzaError.errorDefault
      (.mk "iq" [("type", "error")] ""
        [.mk "error" [("type", "cancel")] ""
          [.mk "item-not-found"
            [("xmlns", "urn:ietf:params:xml:ns:xmpp-stanzas")] "" []]])
      "jabber:client" 0 []).2.2.2.2 rfl rfl

/-- C8: `go(autoDelete)` without an active connected transport emits the
broken-connection diagnostic, schedules self-destruction when `autoDelete`
is set, and never invokes the `onGo` send hook; with a connected transport
it invokes the hook. -/
theorem task_go_requires_transport (connected auto : Bool) (s : TaskState) :
    (connected = false →
      (go connected auto s).warnedBrokenConn = true ∧
      (go connected auto s).onGoCount = s.onGoCount ∧
      (auto = true → (go connected auto s).deleteLaterScheduled = true)) ∧
    (connected = true →
      (go connected auto s).onGoCount = s.onGoCount + 1 ∧
      (go connected auto s).warnedBrokenConn = s.warnedBrokenConn) := by
  constructor
  · intro hc
    subst hc
    cases auto <;> simp [go]
  · intro hc
    subst hc
    simp [go]

/-- Witness for C8: a concrete auto-deleting task without and with a
transport. -/
theorem task_go_requires_transport_witness :
    ((go false true initTask).warnedBrokenConn = true ∧
     (go false true initTask).onGoCount = initTask.onGoCount ∧
     (go false true initTask).deleteLaterScheduled = true) ∧
    ((go true true initTask).onGoCount = initTask.onGoCount + 1 ∧
     (go true true initTask).warnedBrokenConn = initTask.warnedBrokenConn) := by
  obtain ⟨w1, _⟩ := task_go_requires_transport false true initTask
  obtain ⟨_, w2⟩ := task_go_requires_transport true true initTask
  obtain ⟨a1, a2, a3⟩ := w1 rfl
  exact ⟨⟨a1, a2, a3 rfl⟩, w2 rfl⟩

/-- C9: for every row of the published legacy table, building an Error with
`fromCode` of the row's code and reading `code()` back returns the same
code; for a (type, condition) pair outside the table, `code()` returns 0. -/
theorem stanza_error_legacy_roundtrip (r : Int × Int × Int) (t c : Int)
    (hr : r ∈ StanzaError.legacyTable)
    (hout : ∀ q ∈ StanzaError.legacyTable, ¬(q.2.1 = t ∧ q.2.2 = c)) :
    (StanzaError.errorDefault.fromCode r.1).1.code = r.1 ∧
    StanzaError.code { type := t, condition := c, text := "",
                       appSpec := none, originalCode := 0 } = 0 := by
  constructor
  · simp only [StanzaError.legacyTable, List.mem_cons, List.not_mem_nil,
      or_false] at hr
    rcases hr with rfl | rfl | rfl | rfl | rfl | rfl | rfl <;> decide
  · rw [StanzaError.code]
    have hnone : StanzaError.legacyTable.find?
        (fun q => q.2.1 = (StanzaError.mk t c "" none 0).type
          && q.2.2 = (StanzaError.mk t c "" none 0).condition) = none := by
      rw [List.find?_eq_none]
      intro q hq
      simp only [Bool.and_eq_true, decide_eq_true_eq, not_and]
      intro h1 h2
      exact hout q hq ⟨h1, h2⟩
    rw [hnone]

/-- Witness for C9: the 404 row round-trips, and the pair
(Cancel, Gone), which is outside the table, yields no legacy code. -/
theorem stanza_error_legacy_roundtrip_witness :
    (StanzaError.errorDefault.fromCode 404).1.code = 404 ∧
    StanzaError.code { type := StanzaError.Cancel, condition := StanzaError.Gone,
                       text := "", appSpec := none, originalCode := 0 } = 0 :=
  stanza_error_legacy_roundtrip
    (404, StanzaError.Cancel, StanzaError.ItemNotFound)
    StanzaError.Cancel StanzaError.Gone (by decide) (by decide)

/-- C10: the fixed disconnect status `ErrDisc` is 0, the same value as the
default `code` argument of `setSuccess`; a fresh task completed through the
forced-disconnect path and one completed by `setSuccess()` with defaults
both report statusCode 0 and differ only in `success()`. -/
theorem task_errdisc_indistinguishable (fuel : Nat) (ns : String)
    (h : List Action) :
    ErrDisc = setSuccessDefaultCode ∧
    (eventLoopTurn (fuel + 1) ns h (onDisconnect initTask)).done = true ∧
    (eventLoopTurn (fuel + 1) ns h (onDisconnect initTask)).success = false ∧
    (eventLoopTurn (fuel + 1) ns h (onDisconnect initTask)).statusCode = 0 ∧
    (runAction (fuel + 1) ns h initTask
        (.setSuccess setSuccessDefaultCode setSuccessDefaultStr)).done = true ∧
    (runAction (fuel + 1) ns h initTask
        (.setSuccess setSuccessDefaultCode setSuccessDefaultStr)).success = true ∧
    (runAction (fuel + 1) ns h initTask
        (.setSuccess setSuccessDefaultCode setSuccessDefaultStr)).statusCode = 0 ∧
    (eventLoopTurn (fuel + 1) ns h (onDisconnect initTask)).statusCode
      = (runAction (fuel + 1) ns h initTask
          (.setSuccess setSuccessDefaultCode setSuccessDefaultStr)).statusCode := by
  have ho : onDisconnect initTask
      = { initTask with success := false, statusCode := ErrDisc,
                        statusString := "Disconnected", pendingDone := true } := by
    simp [onDisconnect, initTask]
  have he : eventLoopTurn (fuel + 1) ns h
        ({ initTask with success := false, statusCode := ErrDisc,
                         statusString := "Disconnected", pendingDone := true })
      = doneRun (fuel + 1) ns h
          ({ initTask with success := false, statusCode := ErrDisc,
                           statusString := "Disconnected", pendingDone := false }) := by
    simp [eventLoopTurn]
  obtain ⟨d1, d2, d3, d4, d5, d6, d7, d8⟩ :=
    doneRun_step fuel ns h
      ({ initTask with success := false, statusCode := ErrDisc,
                       statusString := "Disconnected", pendingDone := false })
      rfl rfl
  have hra : runAction (fuel + 1) ns h initTask
      (.setSuccess setSuccessDefaultCode setSuccessDefaultStr)
      = doneRun (fuel + 1) ns h
          { initTask with success := true, statusCode := setSuccessDefaultCode,
                          statusString := setSuccessDefaultStr } := by
    simp [runAction, initTask]
  obtain ⟨s1, s2, s3, s4, s5, s6, s7, s8⟩ :=
    doneRun_step fuel ns h
      ({ initTask with success := true, statusCode := setSuccessDefaultCode,
                       statusString := setSuccessDefaultStr }) rfl rfl
  rw [ho, he, hra]
  exact ⟨rfl, d1, d4, d5, s1, s4, s5, d5.trans s5.symm⟩

end Iris
